import Mathlib

/-!
Verification development for `src/compress.py` (StyleGAN2 knowledge-distillation
training loop).  Python tensors carrying parameter values are embedded as
association lists of named rational values; scalar tensor arithmetic is exact
rational (ℚ) arithmetic, and the floating-point kernel-alignment computation
is embedded over the exact reals (ℝ).
-/

open Matrix

/-- `dict(model.named_parameters())` with each parameter's data abstracted to a
single exact rational value (lines 51-52 of `compress.py`). -/
abbrev ParamDict := List (String × ℚ)

/-- `accumulate(model1, model2, decay)` (lines 50-55): iterate over the keys of
`par1` (the target) in order; for each key `k`, in-place update
`par1[k] = par1[k] * decay + par2[k] * (1 - decay)`.  A key of `par1` that is
absent from `par2` raises `KeyError`, embedded as `none`; keys present only in
`par2` are never visited. -/
def accumulate : ParamDict → ParamDict → ℚ → Option ParamDict
  | [], _, _ => some []
  | (k, v) :: rest, par2, decay =>
    match List.lookup k par2 with
    | none => none
    | some w =>
      (accumulate rest par2 decay).map (fun tl => (k, v * decay + w * (1 - decay)) :: tl)

/-- `t.mean()` for a 1-d tensor holding the list `l` (total in ℚ: the empty
list never occurs in the program, the batch size is at least 1). -/
def meanQ (l : List ℚ) : ℚ := l.sum / l.length

/-- The deterministic core of `g_path_regularize` (lines 87-100), given the
per-sample path lengths already computed on line 94 (the stochastic
noise/autograd part upstream of line 94 produces them).  Lines 96-100:
`path_mean = mean_path_length + decay * (path_lengths.mean() - mean_path_length)`;
`path_penalty = (path_lengths - path_mean).pow(2).mean()`; the function returns
`(path_penalty, path_mean.detach())` (detaching does not change the value). -/
def g_path_regularize_core (path_lengths : List ℚ) (mean_path_length : ℚ)
    (decay : ℚ) : ℚ × ℚ :=
  let path_mean := mean_path_length + decay * (meanQ path_lengths - mean_path_length)
  let path_penalty := meanQ (path_lengths.map (fun x => (x - path_mean) ^ 2))
  (path_penalty, path_mean)

/-- Modelled from the spec's words for the refinement comparison of claim C1:
"penalty = mean squared deviation of path lengths from the pre-update detached
running mean". -/
def path_penalty_spec (path_lengths : List ℚ) (target : ℚ) : ℚ :=
  meanQ (path_lengths.map (fun x => (x - target) ^ 2))

/-- Result of `make_noise`: shapes only, since the tensor contents are fresh
Gaussian samples.  `make_noise` returns either a bare tensor (when
`n_noise == 1`) or a tuple of tensors (`unbind(0)` of a stacked sample). -/
inductive NoiseResult where
  | tensor : ℕ × ℕ → NoiseResult
  | tensors : List (ℕ × ℕ) → NoiseResult
deriving DecidableEq

/-- `make_noise(batch, latent_dim, n_noise, device)` (lines 103-109): for
`n_noise == 1` a single `(batch, latent_dim)` tensor; otherwise
`torch.randn(n_noise, batch, latent_dim).unbind(0)`, i.e. `n_noise` tensors of
shape `(batch, latent_dim)`. -/
def make_noise (batch latent_dim n_noise : ℕ) : NoiseResult :=
  if n_noise = 1 then NoiseResult.tensor (batch, latent_dim)
  else NoiseResult.tensors (List.replicate n_noise (batch, latent_dim))

/-- View a `make_noise` result as the sequence of tensors it denotes: a tuple
already is a sequence, a bare tensor is the one-element list the caller builds
around it on line 117. -/
def seqOf : NoiseResult → List (ℕ × ℕ)
  | NoiseResult.tensor t => [t]
  | NoiseResult.tensors l => l

/-- `mixing_noise(batch, latent_dim, prob, device)` (lines 112-117), with the
draw of `random.random()` made explicit as `r` (uniform on `[0,1)`):
`if prob > 0 and random.random() < prob: return make_noise(batch, latent_dim, 2)`
(a two-tensor tuple), `else: return [make_noise(batch, latent_dim, 1)]` (a
one-element list around a bare tensor). -/
def mixing_noise (batch latent_dim : ℕ) (prob r : ℚ) : List (ℕ × ℕ) :=
  if 0 < prob ∧ r < prob then seqOf (make_noise batch latent_dim 2)
  else seqOf (make_noise batch latent_dim 1)

/-- Frobenius inner product of the two Gram matrices: the numerator
`(X_vec * Y_vec).sum()` of `KA` (lines 127-134), where `X_vec = X_ @ X_.T`
and `Y_vec = Y_ @ Y_.T`.  The inputs are the already-flattened views
`X_ = X.view(X.size(0), -1)` and `Y_`; the assertion on line 130 that the
batch dimensions agree is enforced by the shared index type `Fin b`. -/
noncomputable def KA_num {b m n : ℕ} (X : Matrix (Fin b) (Fin m) ℝ)
    (Y : Matrix (Fin b) (Fin n) ℝ) : ℝ :=
  ∑ i, ∑ j, (X * Xᵀ) i j * (Y * Yᵀ) i j

/-- The normalizing denominator `((X_vec**2).sum() * (Y_vec**2).sum())**0.5` of
`KA` (line 134); for a nonnegative argument `a ** 0.5` is `Real.sqrt a`, and
the argument here is a product of sums of squares, hence nonnegative. -/
noncomputable def KA_den {b m n : ℕ} (X : Matrix (Fin b) (Fin m) ℝ)
    (Y : Matrix (Fin b) (Fin n) ℝ) : ℝ :=
  Real.sqrt ((∑ i, ∑ j, ((X * Xᵀ) i j) ^ 2) * (∑ i, ∑ j, ((Y * Yᵀ) i j) ^ 2))

/-- `KA(X, Y)` (lines 127-135), on the flattened views: the unguarded division
of the Gram inner product by the product of the Gram Frobenius norms. -/
noncomputable def KA {b m n : ℕ} (X : Matrix (Fin b) (Fin m) ℝ)
    (Y : Matrix (Fin b) (Fin n) ℝ) : ℝ :=
  KA_num X Y / KA_den X Y

/-- Python `str.zfill(width)` for a string of digits: left-pad with the
character `0` to the requested width. -/
def strZfill (s : String) (width : ℕ) : String :=
  if width ≤ s.length then s
  else String.mk (List.replicate (width - s.length) '0') ++ s

/-- `str(i).zfill(6)`, the zero-padded iteration tag used in both periodic
file names (lines 376 and 393). -/
def iterTag (i : ℕ) : String := strZfill (toString i) 6

/-- The sample-grid file name written on line 376:
`f-string {str(i).zfill(6)}-student.png` (path prefixes aside). -/
def sampleFileName (i : ℕ) : String := iterTag i ++ "-student.png"

/-- The checkpoint file name written on line 393: `str(i).zfill(6)` + `.pt`. -/
def ckptFileName (i : ℕ) : String := iterTag i ++ ".pt"

/-- The guard of the periodic sampling block (lines 345 and 370): rank zero
only, and `i % 1000 == 0`. -/
def sampleFires (rank i : ℕ) : Bool := rank == 0 && i % 1000 == 0

/-- The guard of the periodic checkpoint block (lines 345 and 382): rank zero
only, and `i % 10000 == 0`. -/
def ckptFires (rank i : ℕ) : Bool := rank == 0 && i % 10000 == 0

/-- `i = idx + args.start_iter` (line 181): the iteration index driving every
periodic behaviour, offset by the resumable start index. -/
def iterIndex (start_iter idx : ℕ) : ℕ := idx + start_iter

/-- The logical contents of a training checkpoint file (the dictionary saved
on lines 383-394 and read back by `torch.load`): model state dicts and
optimizer state dicts, each abstracted to a `ParamDict`.  The `args` and
`ada_aug_p` entries are not consulted by the resume logic and are omitted. -/
structure Checkpoint where
  g : ParamDict
  d : ParamDict
  g_ema : ParamDict
  g_optim : ParamDict
  d_optim : ParamDict
deriving DecidableEq

/-- The mutable state of the `__main__` setup code that the two resume blocks
(lines 498-535) touch: the freshly constructed networks and optimizers, and
`args.start_iter` (initialized to 0 on line 445). -/
structure MainState where
  generator : ParamDict
  discriminator : ParamDict
  g_ema : ParamDict
  student_generator : ParamDict
  student_g_ema : ParamDict
  g_optim : ParamDict
  d_optim : ParamDict
  start_iter : ℕ
deriving DecidableEq

/-- `os.path.basename`: the component after the last slash. -/
def basename (p : String) : String :=
  String.mk ((p.data.reverse.takeWhile (fun c => c ≠ '/')).reverse)

/-- The root part of `os.path.splitext`: everything before the last dot, the
whole string when there is no dot (the Python special case for a hidden file
whose only dot is the leading one does not arise for the zero-padded
checkpoint names this is applied to). -/
def splitextRoot (s : String) : String :=
  let r := s.data.reverse
  if r.contains ('.') then String.mk (((r.dropWhile (fun c => c ≠ '.')).drop 1).reverse)
  else s

/-- Value of a decimal digit character, `none` for any other character. -/
def charDigit? (c : Char) : Option ℕ :=
  if ('0' ≤ c ∧ c ≤ '9') then some (c.toNat - ('0').toNat) else none

/-- Decimal parse of a character list, `none` when empty or containing a
non-digit. -/
def digitsToNat? (l : List Char) : Option ℕ :=
  if l.isEmpty then none
  else l.foldl (fun acc c => acc.bind (fun n => (charDigit? c).map (fun d => 10 * n + d))) (some 0)

/-- `int(os.path.splitext(os.path.basename(p))[0])` (lines 527-528), with
Python's `ValueError` embedded as `none` (the `int` constructor also accepts
sign and surrounding whitespace, which zero-padded checkpoint names never
carry). -/
def parseCkptIter (p : String) : Option ℕ := digitsToNat? (splitextRoot (basename p)).data

/-- The `ckpt_s` resume block (lines 522-535), executed when `args.ckpt_s` is
given.  `ckpt_s_file` is the `torch.load` of the file named by `args.ckpt_s`
(line 525); `ckpt` is the value of the variable `ckpt` left by the teacher
block, i.e. the `torch.load` of `args.ckpt` when that option was given and
`none` otherwise.  Line 528 parses `start_iter` from the file name, the
`ValueError` being caught (lines 526-530).  Lines 531-532 load the student
generator and student EMA state dicts from the variable `ckpt` — not from
`ckpt_s` — which is a `NameError` when `args.ckpt` was absent; lines 534-535
load both optimizer states from `ckpt_s`. -/
def loadStudentCkpt (ckpt : Option Checkpoint) (ckpt_s_file : Checkpoint)
    (ckpt_s_path : String) (st : MainState) : Except String MainState :=
  let st1 := match parseCkptIter ckpt_s_path with
    | some n => { st with start_iter := n }
    | none => st
  match ckpt with
  | none => Except.error ("NameError: name ckpt is not defined")
  | some c =>
    Except.ok { st1 with
      student_generator := c.g
      student_g_ema := c.g_ema
      g_optim := ckpt_s_file.g_optim
      d_optim := ckpt_s_file.d_optim }

/-- The configuration knobs of `train` that the claims consume. -/
structure Cfg where
  iter : ℕ
  d_reg_every : ℕ
  g_reg_every : ℕ
  start_iter : ℕ
  accum : ℚ

/-- The opaque numerical computations of one iteration of `train`
(lines 180-394), abstracted as functions of the data they read.  Each
optimizer step mutates exactly the parameters registered when the optimizer
was constructed: `g_optim = optim.Adam(student_generator.parameters(), ...)`
(lines 475-479) holds only the student generator's parameters, and
`d_optim = optim.Adam(student_discriminator.parameters(), ...)` (lines
485-489) only the student discriminator's, so each step function returns new
values for those parameters and its own optimizer state and nothing else.
The teacher `generator` is read by the generator step's forward pass
(line 265) but is registered with no optimizer. -/
structure TrainEnv where
  dStep : ℕ → ParamDict → ParamDict → ParamDict → ParamDict × ParamDict
  computeR1 : ℕ → ℚ
  dRegStep : ℕ → ParamDict → ParamDict → ParamDict × ParamDict
  gStep : ℕ → ParamDict → ParamDict → ParamDict → ParamDict → ParamDict × ParamDict
  pathReg : ℕ → ℚ → ℚ × ℚ × ℚ
  gRegStep : ℕ → ParamDict → ParamDict → ParamDict × ParamDict

/-- The per-process mutable state that the body of `train` touches: the four
parameter sets, the two optimizer states, the running scalars (lines 151,
157-160) and the per-model `requires_grad` flags (toggled on lines 194-196 and
260-262). -/
structure TrainState where
  generator : ParamDict
  student_generator : ParamDict
  student_discriminator : ParamDict
  student_g_ema : ParamDict
  g_optim : ParamDict
  d_optim : ParamDict
  mean_path_length : ℚ
  r1_loss : ℚ
  path_loss : ℚ
  path_lengths : ℚ
  generator_rg : Bool
  student_generator_rg : Bool
  student_discriminator_rg : Bool

/-- One iteration of the training loop (lines 180-394) at loop counter `idx`,
with `i = idx + args.start_iter` (line 181).  When `i > args.iter` the loop
breaks (lines 183-185), leaving the state untouched.  Otherwise, in source
order: the `requires_grad` toggles (194-196), the discriminator adversarial
step (199-223), the conditional R1 regularization (230-250, guarded by
`i % d_reg_every == 0`, recording `r1_loss` before stepping), the
`requires_grad` toggles (260-262), the generator step (264-300, reading the
teacher generator's parameters through its forward pass), the conditional path
regularization (302-325, guarded by `i % g_reg_every == 0`, updating
`path_loss`, `mean_path_length` and `path_lengths`), and the EMA blend
`accumulate(student_g_ema, g_module, accum)` (line 333; the two generators
share an architecture, hence key lookups succeed and `getD` never takes its
default). -/
def trainIter (env : TrainEnv) (cfg : Cfg) (idx : ℕ) (s : TrainState) : TrainState :=
  let i := iterIndex cfg.start_iter idx
  if cfg.iter < i then s
  else
    let s1 := { s with generator_rg := false, student_generator_rg := false,
                       student_discriminator_rg := true }
    let pd := env.dStep i s1.student_generator s1.student_discriminator s1.d_optim
    let s2 := { s1 with student_discriminator := pd.1, d_optim := pd.2 }
    let s3 := if i % cfg.d_reg_every = 0 then
        let r1v := env.computeR1 i
        let pr := env.dRegStep i s2.student_discriminator s2.d_optim
        { s2 with r1_loss := r1v, student_discriminator := pr.1, d_optim := pr.2 }
      else s2
    let s4 := { s3 with student_generator_rg := true, generator_rg := true,
                        student_discriminator_rg := false }
    let pg := env.gStep i s4.generator s4.student_generator s4.student_discriminator s4.g_optim
    let s5 := { s4 with student_generator := pg.1, g_optim := pg.2 }
    let s6 := if i % cfg.g_reg_every = 0 then
        let pp := env.pathReg i s5.mean_path_length
        let pq := env.gRegStep i s5.student_generator s5.g_optim
        { s5 with path_loss := pp.1, mean_path_length := pp.2.1, path_lengths := pp.2.2,
                  student_generator := pq.1, g_optim := pq.2 }
      else s5
    { s6 with student_g_ema :=
        (accumulate s6.student_g_ema s6.student_generator cfg.accum).getD s6.student_g_ema }

/-- `runIters env cfg s n` is the training state after the first `n`
iterations of the loop (loop counters `idx = 0, 1, ..., n - 1`). -/
def runIters (env : TrainEnv) (cfg : Cfg) (s : TrainState) : ℕ → TrainState
  | 0 => s
  | n + 1 => trainIter env cfg n (runIters env cfg s n)

/-- Concrete environment instance used to exercise the loop embedding on
explicit inputs: identity optimizer steps and the iteration index as the R1
value. -/
def envW : TrainEnv :=
  { dStep := fun _ _ d o => (d, o)
    computeR1 := fun i => (i : ℚ)
    dRegStep := fun _ d o => (d, o)
    gStep := fun _ _ g _ o => (g, o)
    pathReg := fun _ m => (0, m, 0)
    gRegStep := fun _ g o => (g, o) }

/-- Concrete configuration instance: the defaults of `compress.py`
(`iter = 800000`, `d_reg_every = 16`, `g_reg_every = 4`, `start_iter = 0`). -/
def cfgW : Cfg :=
  { iter := 800000, d_reg_every := 16, g_reg_every := 4, start_iter := 0, accum := 9/10 }

/-- Concrete initial training state instance, mirroring lines 151-160 for the
scalar fields. -/
def sW : TrainState :=
  { generator := [("t", 1)], student_generator := [("s", 1)],
    student_discriminator := [("u", 1)], student_g_ema := [("s", 2)],
    g_optim := [], d_optim := [], mean_path_length := 0, r1_loss := 0,
    path_loss := 0, path_lengths := 0, generator_rg := false,
    student_generator_rg := false, student_discriminator_rg := false }

/-- Helper: one loop iteration never writes the teacher generator's
parameters (it only reads them, in the generator step's forward pass). -/
lemma trainIter_generator (env : TrainEnv) (cfg : Cfg) (idx : ℕ) (s : TrainState) :
    (trainIter env cfg idx s).generator = s.generator := by
  unfold trainIter
  dsimp only
  split
  · rfl
  · split <;> split <;> rfl

/-- Helper: the reported R1 metric after one iteration is the freshly computed
penalty when `i % d_reg_every == 0` fired and the previous value otherwise. -/
lemma trainIter_r1_loss (env : TrainEnv) (cfg : Cfg) (idx : ℕ) (s : TrainState) :
    (trainIter env cfg idx s).r1_loss =
      if cfg.iter < iterIndex cfg.start_iter idx then s.r1_loss
      else if iterIndex cfg.start_iter idx % cfg.d_reg_every = 0 then
        env.computeR1 (iterIndex cfg.start_iter idx)
      else s.r1_loss := by
  unfold trainIter
  dsimp only
  split
  · rfl
  · split <;> split <;> simp_all

/-- Helper: the teacher generator's parameters survive any number of
iterations unchanged. -/
lemma runIters_generator (env : TrainEnv) (cfg : Cfg) (s : TrainState) (n : ℕ) :
    (runIters env cfg s n).generator = s.generator := by
  induction n with
  | zero => rfl
  | succ n ih => rw [runIters, trainIter_generator, ih]

/-- Helper: with `d_reg_every = 16` and start iteration 0, the R1 metric at
the end of iteration `idx` is the value computed at the most recent multiple
of 16. -/
lemma runIters_r1 (env : TrainEnv) (cfg : Cfg) (s : TrainState)
    (h16 : cfg.d_reg_every = 16) (h0 : cfg.start_iter = 0) (hit : 31 ≤ cfg.iter) :
    ∀ idx, idx ≤ 31 →
      (runIters env cfg s (idx + 1)).r1_loss = env.computeR1 (16 * (idx / 16)) := by
  intro idx
  induction idx with
  | zero =>
    intro _
    rw [runIters, trainIter_r1_loss]
    simp [iterIndex, h16, h0]
  | succ j ih =>
    intro hj
    rw [runIters, trainIter_r1_loss]
    have hnb : ¬ cfg.iter < iterIndex cfg.start_iter (j + 1) := by
      simp only [iterIndex, h0]
      omega
    rw [if_neg hnb]
    by_cases hmod : iterIndex cfg.start_iter (j + 1) % cfg.d_reg_every = 0
    · rw [if_pos hmod]
      congr 1
      simp only [iterIndex, h0, h16] at hmod ⊢
      omega
    · rw [if_neg hmod]
      rw [ih (by omega)]
      congr 1
      simp only [iterIndex, h0, h16] at hmod
      omega

/-- Claim C4: across every training iteration the teacher generator's
parameter values are never modified — no optimizer step is applied to them
(only the student generator's parameters are held by `g_optim`, see the
`TrainEnv` docstring) — so after any number `n` of iterations the teacher's
parameters equal their values at the start. -/
theorem teacher_generator_frozen (env : TrainEnv) (cfg : Cfg) (s : TrainState) (n : ℕ) :
    (runIters env cfg s n).generator = s.generator :=
  runIters_generator env cfg s n

/-- Claim C5: with `d_reg_every = 16` and start iteration 0, over 32
iterations the R1 penalty is recomputed exactly at the iterations `idx` with
`idx % 16 == 0`, namely `{0, 16}`; the metric reported at the end of
iteration `idx` equals the value computed at the most recent such iteration
`16 * (idx / 16)`; and before any iteration has run the metric is its
initialization, zero. -/
theorem r1_cadence_d_reg_16 (env : TrainEnv) (cfg : Cfg) (s : TrainState)
    (h16 : cfg.d_reg_every = 16) (h0 : cfg.start_iter = 0) (hit : 31 ≤ cfg.iter)
    (hinit : s.r1_loss = 0) (idx : ℕ) (hidx : idx < 32) :
    ((iterIndex cfg.start_iter idx % cfg.d_reg_every = 0) ↔ (idx = 0 ∨ idx = 16)) ∧
    (runIters env cfg s 0).r1_loss = 0 ∧
    (runIters env cfg s (idx + 1)).r1_loss = env.computeR1 (16 * (idx / 16)) := by
  refine ⟨?_, hinit, runIters_r1 env cfg s h16 h0 hit idx (by omega)⟩
  simp only [iterIndex, h0, h16]
  omega

/-- Claim C5 witness: the concrete loop instance at iteration `idx = 5`,
whose reported metric is the value computed at iteration 0. -/
theorem r1_cadence_d_reg_16_witness :
    cfgW.d_reg_every = 16 ∧ cfgW.start_iter = 0 ∧ 31 ≤ cfgW.iter ∧
    sW.r1_loss = 0 ∧ (5 : ℕ) < 32 ∧
    ((iterIndex cfgW.start_iter 5 % cfgW.d_reg_every = 0) ↔ ((5 : ℕ) = 0 ∨ (5 : ℕ) = 16)) ∧
    (runIters envW cfgW sW 0).r1_loss = 0 ∧
    (runIters envW cfgW sW 6).r1_loss = envW.computeR1 (16 * (5 / 16)) :=
  ⟨rfl, rfl, by norm_num [cfgW], rfl, by norm_num,
   (r1_cadence_d_reg_16 envW cfgW sW rfl rfl (by norm_num [cfgW]) rfl 5 (by norm_num)).1,
   (r1_cadence_d_reg_16 envW cfgW sW rfl rfl (by norm_num [cfgW]) rfl 5 (by norm_num)).2.1,
   (r1_cadence_d_reg_16 envW cfgW sW rfl rfl (by norm_num [cfgW]) rfl 5 (by norm_num)).2.2⟩

/-- Helper: `accumulate` succeeds when every target key has a source entry. -/
lemma accumulate_isSome (par1 par2 : ParamDict) (decay : ℚ)
    (h : ∀ p ∈ par1, (List.lookup p.1 par2).isSome) :
    (accumulate par1 par2 decay).isSome := by
  induction par1 with
  | nil => rfl
  | cons p rest ih =>
    obtain ⟨k, v⟩ := p
    obtain ⟨w, hw⟩ := Option.isSome_iff_exists.mp (h (k, v) (List.mem_cons_self _ _))
    have hrest := ih (fun q hq => h q (List.mem_cons_of_mem _ hq))
    obtain ⟨tl, htl⟩ := Option.isSome_iff_exists.mp hrest
    simp [accumulate, hw, htl]

/-- Helper: a target key missing from the source makes `accumulate` fail
(the embedded `KeyError`). -/
lemma accumulate_none (par1 par2 : ParamDict) (decay : ℚ)
    (h : ∃ p ∈ par1, List.lookup p.1 par2 = none) :
    accumulate par1 par2 decay = none := by
  induction par1 with
  | nil => simp at h
  | cons q rest ih =>
    obtain ⟨p, hp, hnone⟩ := h
    obtain ⟨k, v⟩ := q
    rcases List.mem_cons.mp hp with heq | hmem
    · subst heq
      simp [accumulate, hnone]
    · cases hlk : List.lookup k par2 with
      | none => simp [accumulate, hlk]
      | some w => simp [accumulate, hlk, ih ⟨p, hmem, hnone⟩]

/-- Helper: `accumulate` reads the source only through lookups at the target's
keys, so entries present only in the source are silently ignored. -/
lemma accumulate_congr (par1 par2 par2' : ParamDict) (decay : ℚ)
    (h : ∀ p ∈ par1, List.lookup p.1 par2' = List.lookup p.1 par2) :
    accumulate par1 par2' decay = accumulate par1 par2 decay := by
  induction par1 with
  | nil => rfl
  | cons q rest ih =>
    obtain ⟨k, v⟩ := q
    have hk := h (k, v) (List.mem_cons_self _ _)
    have hrest := ih (fun p hp => h p (List.mem_cons_of_mem _ hp))
    simp only [accumulate, hk, hrest]

/-- Helper: with `decay = 0` the update formula collapses to
`par1[k] = par2[k]`, so the target is overwritten with the source values. -/
lemma accumulate_zero (par1 par2 : ParamDict)
    (h : ∀ p ∈ par1, (List.lookup p.1 par2).isSome) :
    accumulate par1 par2 0 =
      some (par1.map (fun p => (p.1, (List.lookup p.1 par2).getD 0))) := by
  induction par1 with
  | nil => rfl
  | cons q rest ih =>
    obtain ⟨k, v⟩ := q
    obtain ⟨w, hw⟩ := Option.isSome_iff_exists.mp (h (k, v) (List.mem_cons_self _ _))
    have hrest := ih (fun p hp => h p (List.mem_cons_of_mem _ hp))
    simp [accumulate, hw, hrest]

/-- Claim C1 counterexample: at per-sample path lengths `[1]`, pre-update
running mean `0` and the default `decay = 0.01`, the penalty returned by
`g_path_regularize` is `(1 - 0.01)^2 = 0.9801`, not the mean squared deviation
`1` from the pre-update mean: the penalty is measured against the newly
blended mean, not the pre-update one. -/
theorem g_path_regularize_cex :
    (g_path_regularize_core [1] 0 (1/100)).1 ≠ path_penalty_spec [1] 0 := by
  norm_num [g_path_regularize_core, path_penalty_spec, meanQ]

/-- Claim C1 (amended): for every call
`PathRegularization(fake_img, latents, running_mean)`, the returned penalty
equals the mean squared deviation of the per-sample path lengths from the
*newly blended* mean `running_mean + decay * (mean(path_lengths) - running_mean)`,
and the returned updated mean is that same blended mean (detached), so the
penalty and the returned mean are in sync — there is no one-step lag. -/
theorem g_path_regularize_penalty (pl : List ℚ) (pre decay : ℚ) :
    (g_path_regularize_core pl pre decay).2 = pre + decay * (meanQ pl - pre) ∧
    (g_path_regularize_core pl pre decay).1 =
      path_penalty_spec pl ((g_path_regularize_core pl pre decay).2) :=
  ⟨rfl, rfl⟩

/-- Claim C3 counterexample: a single parameter `w` with target value `1` and
source value `2`; `accumulate` with `decay = 0` rewrites the target to `2`,
so the target is not left unchanged. -/
theorem accumulate_decay_zero_cex :
    accumulate [("w", 1)] [("w", 2)] 0 ≠ some [("w", 1)] := by
  norm_num [accumulate, List.lookup]

/-- Claim C3 (amended): for every pair of models with matching parameter
names, `Accumulate(target, source, decay=0)` overwrites every parameter of
`target` with the corresponding parameter of `source` (it is `decay = 1` that
would leave the target unchanged): `target[k] = target[k]*0 + source[k]*(1-0)`. -/
theorem accumulate_decay_zero (par1 par2 : ParamDict)
    (h : ∀ p ∈ par1, (List.lookup p.1 par2).isSome) :
    accumulate par1 par2 0 =
      some (par1.map (fun p => (p.1, (List.lookup p.1 par2).getD 0))) :=
  accumulate_zero par1 par2 h

/-- Claim C3 witness: at target `[("w", 1)]` and source `[("w", 2)]` the
hypothesis holds and the theorem yields `some [("w", 2)]`. -/
theorem accumulate_decay_zero_witness :
    (∀ p ∈ [(("w" : String), (1 : ℚ))], (List.lookup p.1 [(("w" : String), (2 : ℚ))]).isSome) ∧
    accumulate [("w", 1)] [("w", 2)] 0 = some [("w", 2)] := by
  refine ⟨by simp [List.lookup], ?_⟩
  rw [accumulate_decay_zero [("w", 1)] [("w", 2)] (by simp [List.lookup])]
  simp [List.lookup]

/-- Claim C8: `accumulate` iterates over the target's parameter names looking
each up in the source, so (i) when every target name is present in the source
the call succeeds, (ii) a target-only name makes the lookup fail (Python
`KeyError`, embedded as `none`), and (iii) the result depends on the source
only through the lookups at the target's names, so source-only names are
silently ignored. -/
theorem accumulate_lookup_contract (par1 par2 : ParamDict) (decay : ℚ) :
    ((∀ p ∈ par1, (List.lookup p.1 par2).isSome) → (accumulate par1 par2 decay).isSome) ∧
    ((∃ p ∈ par1, List.lookup p.1 par2 = none) → accumulate par1 par2 decay = none) ∧
    (∀ par2' : ParamDict, (∀ p ∈ par1, List.lookup p.1 par2' = List.lookup p.1 par2) →
      accumulate par1 par2' decay = accumulate par1 par2 decay) :=
  ⟨accumulate_isSome par1 par2 decay,
   accumulate_none par1 par2 decay,
   fun par2' h => accumulate_congr par1 par2 par2' decay h⟩

/-- Claim C8 witness: a successful call with all target names present and a
source-only extra name ignored, and a failing call on a target-only name. -/
theorem accumulate_lookup_contract_witness :
    (accumulate [(("a" : String), (1 : ℚ))] [("a", 2), ("b", 5)] (1/2)).isSome ∧
    accumulate [(("c" : String), (1 : ℚ))] [("a", 2)] (1/2) = none ∧
    accumulate [(("a" : String), (1 : ℚ))] [("a", 2), ("b", 5)] (1/2) =
      accumulate [("a", 1)] [("a", 2)] (1/2) :=
  ⟨(accumulate_lookup_contract [("a", 1)] [("a", 2), ("b", 5)] (1/2)).1
      (by simp [List.lookup]),
   (accumulate_lookup_contract [("c", 1)] [("a", 2)] (1/2)).2.1
      ⟨("c", 1), by simp, by simp [List.lookup]⟩,
   (accumulate_lookup_contract [("a", 1)] [("a", 2)] (1/2)).2.2 [("a", 2), ("b", 5)]
      (by simp [List.lookup])⟩

/-- Helper: the Frobenius sum of squares of a nonzero matrix is positive. -/
lemma sum_sq_pos_of_ne_zero {b c : ℕ} (G : Matrix (Fin b) (Fin c) ℝ) (h : G ≠ 0) :
    0 < ∑ i, ∑ j, (G i j) ^ 2 := by
  have hex : ∃ i j, G i j ≠ 0 := by
    by_contra hc
    push_neg at hc
    exact h (Matrix.ext (fun i j => by simpa using hc i j))
  obtain ⟨i0, j0, hij⟩ := hex
  refine Finset.sum_pos' (fun i _ => Finset.sum_nonneg (fun j _ => sq_nonneg _)) ?_
  refine ⟨i0, Finset.mem_univ _, ?_⟩
  refine Finset.sum_pos' (fun j _ => sq_nonneg _) ⟨j0, Finset.mem_univ _, ?_⟩
  positivity

/-- Helper: the 1×1 matrix `[[1]]` has a nonzero Gram matrix. -/
lemma one_gram_ne_zero : (!![(1 : ℝ)] * !![(1 : ℝ)]ᵀ) ≠ 0 := by
  intro h
  have h00 := congrFun (congrFun h 0) 0
  simp [Matrix.mul_apply] at h00

/-- Claim C6: for every tensor `X` whose flattened Gram matrix `X·Xᵗ` is
nonzero, `KA(X, X)` is exactly `1` in exact real arithmetic (the Frobenius
inner product of the Gram matrix with itself divided by the product of its
Frobenius norms), which is the "returns 1.0 up to floating tolerance" of the
floating-point implementation. -/
theorem KA_self_eq_one {b m : ℕ} (X : Matrix (Fin b) (Fin m) ℝ)
    (h : X * Xᵀ ≠ 0) : KA X X = 1 := by
  have hS : 0 < ∑ i, ∑ j, ((X * Xᵀ) i j) ^ 2 := sum_sq_pos_of_ne_zero _ h
  have hnum : KA_num X X = ∑ i, ∑ j, ((X * Xᵀ) i j) ^ 2 := by
    unfold KA_num
    simp [pow_two]
  have hden : KA_den X X = ∑ i, ∑ j, ((X * Xᵀ) i j) ^ 2 := by
    unfold KA_den
    exact Real.sqrt_mul_self (le_of_lt hS)
  rw [KA, hnum, hden]
  exact div_self (ne_of_gt hS)

/-- Claim C6 witness: the 1×1 tensor `[[1]]` has nonzero Gram matrix and
kernel alignment `1` with itself. -/
theorem KA_self_eq_one_witness :
    (!![(1 : ℝ)] * !![(1 : ℝ)]ᵀ ≠ 0) ∧ KA !![(1 : ℝ)] !![(1 : ℝ)] = 1 :=
  ⟨one_gram_ne_zero, KA_self_eq_one _ one_gram_ne_zero⟩

/-- Claim C9: the division in `KA` is unguarded — when `X` flattens to the
all-zero matrix the normalizing denominator is exactly zero (a division by
zero, NaN in the floating-point implementation) — and when both Gram matrices
are nonzero the denominator is strictly positive, so the function is
well-defined exactly under that precondition. -/
theorem KA_den_unguarded {b m n : ℕ} (X : Matrix (Fin b) (Fin m) ℝ)
    (Y : Matrix (Fin b) (Fin n) ℝ) :
    (X = 0 → KA_den X Y = 0) ∧ (X * Xᵀ ≠ 0 → Y * Yᵀ ≠ 0 → 0 < KA_den X Y) := by
  constructor
  · intro hX
    subst hX
    unfold KA_den
    simp
  · intro hX hY
    unfold KA_den
    exact Real.sqrt_pos.mpr
      (mul_pos (sum_sq_pos_of_ne_zero _ hX) (sum_sq_pos_of_ne_zero _ hY))

/-- Claim C9 witness: the all-zero 1×1 tensor yields a zero denominator, and
the 1×1 tensor `[[1]]` a positive one. -/
theorem KA_den_unguarded_witness :
    KA_den (0 : Matrix (Fin 1) (Fin 1) ℝ) !![(1 : ℝ)] = 0 ∧
    0 < KA_den !![(1 : ℝ)] !![(1 : ℝ)] :=
  ⟨(KA_den_unguarded 0 !![(1 : ℝ)]).1 rfl,
   (KA_den_unguarded !![(1 : ℝ)] !![(1 : ℝ)]).2 one_gram_ne_zero one_gram_ne_zero⟩

/-- Claim C7: for every batch size `b` and latent dimension `d` and every
possible draw `r` of `random.random()` (so `0 ≤ r < 1`),
`mixing_noise(b, d, 0)` returns a single-element sequence whose element has
shape `(b, d)`, and `mixing_noise(b, d, 1)` returns a two-element sequence of
`(b, d)` tensors. -/
theorem mixing_noise_lengths (b d : ℕ) (r : ℚ) (h0 : 0 ≤ r) (h1 : r < 1) :
    mixing_noise b d 0 r = [(b, d)] ∧ mixing_noise b d 1 r = [(b, d), (b, d)] := by
  constructor
  · simp [mixing_noise, make_noise, seqOf]
  · simp [mixing_noise, make_noise, seqOf, h1, List.replicate]

/-- Claim C7 witness: the draw `r = 1/2` at batch 4, latent dimension 512. -/
theorem mixing_noise_lengths_witness :
    (0 : ℚ) ≤ 1/2 ∧ (1/2 : ℚ) < 1 ∧
    mixing_noise 4 512 0 (1/2) = [(4, 512)] ∧
    mixing_noise 4 512 1 (1/2) = [(4, 512), (4, 512)] :=
  ⟨by norm_num, by norm_num,
   (mixing_noise_lengths 4 512 (1/2) (by norm_num) (by norm_num)).1,
   (mixing_noise_lengths 4 512 (1/2) (by norm_num) (by norm_num)).2⟩

/-- Claim C10: with start iteration 0, the first loop iteration has index
`i = 0 + 0 = 0`, which satisfies both `i % 1000 == 0` and `i % 10000 == 0`,
so on rank zero both periodic actions fire at the end of iteration 0 — before
1000 (respectively 10000) iterations have elapsed — writing the sample grid
`000000-student.png` and the checkpoint `000000.pt`. -/
theorem first_iteration_periodic_outputs :
    iterIndex 0 0 = 0 ∧
    sampleFires 0 (iterIndex 0 0) = true ∧
    ckptFires 0 (iterIndex 0 0) = true ∧
    sampleFileName (iterIndex 0 0) = "000000-student.png" ∧
    ckptFileName (iterIndex 0 0) = "000000.pt" ∧
    iterIndex 0 0 < 1000 ∧ iterIndex 0 0 < 10000 := by
  refine ⟨rfl, rfl, rfl, ?_, ?_, by norm_num [iterIndex], by norm_num [iterIndex]⟩ <;> rfl

/-- Claim C2 (code bug demonstration): the `ckpt_s` resume block with a
student checkpoint named `checkpoints/010000.pt`.  Without `--ckpt` the block
crashes with a `NameError` (line 531 references the undefined variable
`ckpt`); with a teacher checkpoint loaded, the student generator and student
EMA weights come from the *teacher* checkpoint file (`ckpt["g"]`,
`ckpt["g_ema"]`), not from the `ckpt_s` file, while only the optimizer states
and the filename-parsed start iteration come from `ckpt_s`. -/
theorem loadStudentCkpt_reads_teacher_file :
    (loadStudentCkpt none
        { g := [("w", 2)], d := [("w", 3)], g_ema := [("w", 4)],
          g_optim := [("m", 5)], d_optim := [("m", 6)] }
        "checkpoints/010000.pt"
        { generator := [("w", 7)], discriminator := [("w", 8)], g_ema := [("w", 7)],
          student_generator := [("w", 0)], student_g_ema := [("w", 0)],
          g_optim := [("m", 0)], d_optim := [("m", 0)], start_iter := 0 }
      = Except.error ("NameError: name ckpt is not defined")) ∧
    (loadStudentCkpt
        (some { g := [("w", 1)], d := [("w", 9)], g_ema := [("w", 10)],
                g_optim := [("m", 11)], d_optim := [("m", 12)] })
        { g := [("w", 2)], d := [("w", 3)], g_ema := [("w", 4)],
          g_optim := [("m", 5)], d_optim := [("m", 6)] }
        "checkpoints/010000.pt"
        { generator := [("w", 7)], discriminator := [("w", 8)], g_ema := [("w", 7)],
          student_generator := [("w", 0)], student_g_ema := [("w", 0)],
          g_optim := [("m", 0)], d_optim := [("m", 0)], start_iter := 0 }
      = Except.ok
        { generator := [("w", 7)], discriminator := [("w", 8)], g_ema := [("w", 7)],
          student_generator := [("w", 1)], student_g_ema := [("w", 10)],
          g_optim := [("m", 5)], d_optim := [("m", 6)], start_iter := 10000 }) := by
  constructor <;> rfl
